import Mathlib

/-!
Shallow embedding of the pulsepick-ai backend's relevance-scoring and
batch-orchestration core, together with proofs checking the natural-language
specification against the code.

Source files embedded:
* `backend/app/pipeline/processor.py` (`ArticleProcessor`): recency scoring,
  persona relevance (oracle-backed and keyword fallback), combined scoring.
* `backend/app/workers/tasks.py` (`batch_score_articles_async`): the chunked
  asynchronous batch-scoring job and its Redis progress writes.
* `backend/app/api/endpoints/articles.py` (`get_articles_with_persona`,
  `get_batch_score_status`): the two-pass scoring call sites and the
  status-poll endpoint.

Python floats are modelled as `ℚ` (all constants in the source — 0.3, 0.7,
0.25, 0.15, 0.4, 0.2, 0.5 — and all arithmetic used by the claims are exact in
that model), except the recency exponential, modelled over `ℝ` with
`Real.exp`.  Redis hashes are modelled as explicit record states reached by a
trace of store operations, one operation per `hset` call in the source.
-/

namespace PulsePick

/-! ## Python primitives -/

/-- Python truthiness of an optional string: `None` and `""` are falsy. -/
def strTruthy : Option String → Bool
  | none => false
  | some s => !s.isEmpty

/-- Python `str(x)` for an optional string as it appears inside an f-string:
`None` prints as `"None"`. -/
def pyStr : Option String → String
  | none => "None"
  | some s => s

/-- Python `s.lower()` (the source only feeds ASCII keyword lists). -/
def pyLower (s : String) : String := ⟨s.data.map Char.toLower⟩

/-- Python `s.strip()`: drop leading and trailing whitespace. -/
def pyStrip (s : String) : String :=
  ⟨((s.data.dropWhile Char.isWhitespace).reverse.dropWhile
      Char.isWhitespace).reverse⟩

/-- Python `needle in hay` substring containment on strings. -/
def pyIn (needle hay : String) : Bool :=
  hay.data.tails.any (fun t => needle.data.isPrefixOf t)

/-- Worker for `pySplit`: walk the characters keeping the (reversed) current
word, emitting maximal non-whitespace runs. -/
def pySplitAux : List Char → List Char → List (List Char)
  | [], acc => if acc.isEmpty then [] else [acc.reverse]
  | c :: rest, acc =>
    if c.isWhitespace then
      if acc.isEmpty then pySplitAux rest []
      else acc.reverse :: pySplitAux rest []
    else pySplitAux rest (c :: acc)

/-- Python `s.split()`: split on whitespace runs, discarding empty pieces. -/
def pySplit (s : String) : List String :=
  (pySplitAux s.data []).map (fun cs => ⟨cs⟩)

/-- Python `float(s)` restricted to the decimal literals (`[+-]digits[.digits]`)
relevant to the oracle's "output only the numerical score" contract; every
other reply (e.g. `"high"`) fails to parse, as `float` raises `ValueError`. -/
def pyFloat (s : String) : Option ℚ :=
  let cs := s.toList
  let signed : ℚ × List Char :=
    match cs with
    | '-' :: t => (-1, t)
    | '+' :: t => (1, t)
    | _ => (1, cs)
  let intPart := signed.2.takeWhile Char.isDigit
  let rest := signed.2.dropWhile Char.isDigit
  let digitsVal : List Char → ℕ :=
    fun ds => ds.foldl (fun a c => 10 * a + (c.toNat - 48)) 0
  match rest with
  | [] => if intPart.isEmpty then none else some (signed.1 * digitsVal intPart)
  | '.' :: frac =>
    if frac.all Char.isDigit && !(intPart.isEmpty && frac.isEmpty) then
      some (signed.1 * ((digitsVal intPart : ℚ) +
        (digitsVal frac : ℚ) / (10 : ℚ) ^ frac.length))
    else none
  | _ => none

/-- Python `round` on an exact rational: round half to even (banker's
rounding), as used by `round((processed / total) * 100)`. -/
def pyRound (q : ℚ) : ℤ :=
  let f := ⌊q⌋
  let r := q - f
  if r < 1 / 2 then f
  else if 1 / 2 < r then f + 1
  else if f % 2 = 0 then f else f + 1

/-- Worker for `pyChunks`, structurally recursive on a fuel bound; any fuel
of at least `l.length` slices identically, and `pyChunks` passes exactly
`l.length`. -/
def pyChunksF (fuel n : ℕ) (l : List α) : List (List α) :=
  match fuel with
  | 0 => []
  | fuel + 1 =>
    if l.length = 0 ∨ n = 0 then []
    else l.take n :: pyChunksF fuel n (l.drop n)

/-- Python list slicing into fixed-size chunks:
`[ids[i:i+n] for i in range(0, len(ids), n)]`. -/
def pyChunks (n : ℕ) (l : List α) : List (List α) := pyChunksF l.length n l

/-! ## Data model (`backend/app/db/models.py`) -/

/-- The fields of the `Article` ORM row that the scoring core reads.
`title`, `summary` and `industry` are nullable columns; `publishedAt` is the
timezone-normalized publication instant, in whole seconds. -/
structure Article where
  id : ℕ
  title : Option String
  summary : Option String
  industry : Option String
  publishedAt : Option ℤ
deriving Repr, DecidableEq

/-- The persona dict: `persona.get(key, "")` yields `""` for absent keys, so
every attribute is a (possibly empty) string. -/
structure Persona where
  recipientName : String
  jobTitle : String
  company : String
  conversationContext : String
  personalityTraits : String
deriving Repr, DecidableEq

/-- A sample technology article (no published timestamp) used as concrete
input in witnesses and counterexamples. -/
def sampleArticle : Article :=
  { id := 1, title := some "Tech news today",
    summary := some "Something about things",
    industry := some "technology", publishedAt := none }

/-- A sample persona whose only non-empty attribute is a company name that
does not occur in `sampleArticle`. -/
def samplePersona : Persona :=
  { recipientName := "", jobTitle := "", company := "qqqq",
    conversationContext := "", personalityTraits := "" }

/-- A sample stored article row with id 7. -/
def sampleRow : Article :=
  { id := 7, title := some "t", summary := some "s", industry := none,
    publishedAt := none }

/-- A sample article catalog holding exactly the row with id 7. -/
def sampleDb : ℕ → Option Article :=
  fun i => if i = 7 then some sampleRow else none

/-- A sample article catalog in which every id resolves. -/
def sampleDbAll : ℕ → Option Article :=
  fun i => some { id := i, title := none, summary := none, industry := none,
                  publishedAt := none }

/-- A sample database fault: the per-chunk article fetch succeeds for the
first, full 100-id chunk and raises for the following short chunk. -/
def sampleFetchFail : List ℕ → Option String :=
  fun chunk => if chunk.length = 100 then none
    else some "database connection lost"

/-! ## ScoringEngine (`backend/app/pipeline/processor.py`) -/

/-- `ArticleProcessor._calculate_relevance_score`, lines 221-244: whole days
elapsed, `(now - pub_date).days`.  Python's `timedelta.days` floors, which is
`Int.fdiv` of the second difference by 86400. -/
def daysOld (now published : ℤ) : ℤ := (now - published).fdiv 86400

/-- The recency decay `math.exp(-decay_factor * max(0, days_old))` with
`decay_factor = 0.5`. -/
noncomputable def recencyScore (d : ℤ) : ℝ :=
  Real.exp (-(0.5) * ((max 0 d : ℤ) : ℝ))

/-- `ArticleProcessor._calculate_relevance_score`: `0.0` when `published_at`
is unknown, otherwise the recency decay of the whole-day age. -/
noncomputable def articleRecencyScore (a : Article) (now : ℤ) : ℝ :=
  match a.publishedAt with
  | none => 0
  | some t => recencyScore (daysOld now t)

/-- `ArticleProcessor._extract_job_role_terms`, lines 420-451. -/
def extractJobRoleTerms (jobTitle : String) : List String :=
  let commonRoles := ["manager", "director", "executive", "analyst",
    "specialist", "engineer", "developer", "architect", "consultant",
    "advisor", "officer", "lead", "head", "chief", "vp", "president",
    "ceo", "cto", "cio"]
  let commonDepartments := ["sales", "marketing", "product", "engineering",
    "development", "finance", "hr", "operations", "research", "strategy",
    "technology", "it", "security", "data", "analytics", "customer",
    "support", "service", "business", "legal"]
  let jobTitleLower := pyLower jobTitle
  let terms := pySplit jobTitleLower
  let result := terms.filter (fun t => t.length > 2)
  let result := commonRoles.foldl
    (fun res role =>
      if pyIn role jobTitleLower && !res.contains role then res ++ [role]
      else res) result
  commonDepartments.foldl
    (fun res dept =>
      if pyIn dept jobTitleLower && !res.contains dept then res ++ [dept]
      else res) result

/-- `ArticleProcessor._infer_industry_from_text`, lines 453-470: first
industry (in dict insertion order) with a keyword substring hit, else
`"other"`. -/
def inferIndustryFromText (text : String) : String :=
  let textLower := pyLower text
  let industryKeywords : List (String × List String) :=
    [("bfsi", ["bank", "finance", "insurance", "wealth", "investment",
       "trading", "fintech"]),
     ("retail", ["retail", "ecommerce", "shop", "store", "consumer",
       "merchandise"]),
     ("technology", ["tech", "software", "hardware", "cloud", "saas",
       "digital", "computer", "it"]),
     ("healthcare", ["health", "medical", "pharma", "biotech", "hospital",
       "clinic", "patient"]),
     ("other", [])]
  match industryKeywords.find? (fun p => p.2.any (fun k => pyIn k textLower)) with
  | some p => p.1
  | none => "other"

/-- The lowered `f"{article.title}. {article.summary}"` text the fallback
heuristic searches for keyword hits (`processor.py` line 356). -/
def articleContent (a : Article) : String :=
  pyLower ⟨(pyStr a.title).data ++ ". ".data ++ (pyStr a.summary).data⟩

/-- `ArticleProcessor._calculate_persona_relevance_fallback`, lines 341-418:
pure keyword-overlap heuristic combining job-title, company, conversation
context and industry alignment, clamped to [0, 1]. -/
def fallbackPersonaScore (a : Article) (p : Persona) : ℚ :=
  let content := articleContent a
  let jobTitleScore : ℚ :=
    if !p.jobTitle.isEmpty then
      let jobTerms := extractJobRoleTerms p.jobTitle
      let hits := (jobTerms.filter (fun t => pyIn (pyLower t) content)).length
      min 1 ((hits : ℚ) / max 1 (jobTerms.length : ℚ))
    else 0
  let companyScore : ℚ :=
    if !p.company.isEmpty then
      if pyIn (pyLower p.company) content then 1
      else
        let companyTerms := pySplit (pyLower p.company)
        let hits :=
          (companyTerms.filter (fun t => t.length > 3 && pyIn t content)).length
        min 0.7 ((hits : ℚ) / max 1 (companyTerms.length : ℚ))
    else 0
  let contextScore : ℚ :=
    if !p.conversationContext.isEmpty then
      let contextTerms := pySplit (pyLower p.conversationContext)
      let significantTerms := contextTerms.filter (fun t => t.length > 3)
      if !significantTerms.isEmpty then
        let hits :=
          (significantTerms.filter (fun t => pyIn t content)).length
        min 1 ((hits : ℚ) / max 1 ((significantTerms.length : ℚ) * 0.5))
      else 0
    else 0
  let industryScore : ℚ :=
    if strTruthy a.industry && !p.jobTitle.isEmpty then
      let personaIndustry :=
        inferIndustryFromText ⟨p.jobTitle.data ++ " ".data ++ p.company.data⟩
      if a.industry = some personaIndustry then 1 else 0.3
    else 0
  let personaScore :=
    jobTitleScore * 0.25 + companyScore * 0.15 +
    contextScore * 0.4 + industryScore * 0.2
  max 0 (min 1 personaScore)

/-- The outcome of one `_calculate_persona_relevance_score` call, instrumented
with how many oracle (OpenAI) requests were issued and how many times the
keyword fallback heuristic was consulted. -/
structure PersonaScoreCall where
  score : ℚ
  oracleRequests : ℕ
  fallbackUses : ℕ
deriving Repr, DecidableEq

/-- The oracle's reply to one scoring request: `Except.error` models a raised
exception (transport/config failure), `Except.ok s` the returned message
content. -/
abbrev OracleReply := Except Unit String

/-- `ArticleProcessor._calculate_persona_relevance_score`, lines 246-339:
returns `0.5` outright when title or summary is missing (no oracle contact,
no fallback); otherwise asks the oracle, strips and parses its reply, clamps
a parsed number into [0, 1], and on a parse failure or a raised exception
falls back to `_calculate_persona_relevance_fallback`. -/
def personaRelevanceScore (a : Article) (p : Persona) (oracle : OracleReply) :
    PersonaScoreCall :=
  if !(strTruthy a.title) || !(strTruthy a.summary) then
    { score := 0.5, oracleRequests := 0, fallbackUses := 0 }
  else
    match oracle with
    | .error _ =>
      { score := fallbackPersonaScore a p, oracleRequests := 1, fallbackUses := 1 }
    | .ok s =>
      match pyFloat (pyStrip s) with
      | some v =>
        { score := max 0 (min 1 v), oracleRequests := 1, fallbackUses := 0 }
      | none =>
        { score := fallbackPersonaScore a p, oracleRequests := 1, fallbackUses := 1 }

/-- `max(0.0, min(1.0, x))`. -/
noncomputable def clamp01 (x : ℝ) : ℝ := max 0 (min 1 x)

/-- The combination formula of `calculate_combined_relevance_score`, lines
566-574: `w1 * recency + w2 * persona` with `w1 = 0.3`, `w2 = 0.7`, clamped
to [0, 1]. -/
noncomputable def combineScores (recency personaScore : ℝ) : ℝ :=
  clamp01 (0.3 * recency + 0.7 * personaScore)

/-- `ArticleProcessor.calculate_combined_relevance_score`, lines 472-574: with
no persona (`if not persona:` — `None` or an empty dict), returns the bare
recency score; with a persona, asks the oracle
directly and substitutes the fixed default `0.5` for the persona component on
a parse failure or a raised exception (the fallback heuristic is deliberately
skipped there), then combines and clamps. -/
noncomputable def combinedRelevanceScore (a : Article) (persona : Option Persona)
    (now : ℤ) (oracle : OracleReply) : ℝ :=
  let recency := articleRecencyScore a now
  match persona with
  | none => recency
  | some _ =>
    let personaScore : ℚ :=
      match oracle with
      | .error _ => 0.5
      | .ok s =>
        match pyFloat (pyStrip s) with
        | some v => max 0 (min 1 v)
        | none => 0.5
    combineScores recency (personaScore : ℝ)

/-! ## Two-pass scoring call sites
(`backend/app/api/endpoints/articles.py`, `get_articles_with_persona`) -/

/-- One run of the two-pass optimization, instrumented with which articles
were sent to the oracle.  (The endpoint afterwards re-sorts by the new scores
and slices to the requested window; the claims only concern the two passes.) -/
structure TwoPassRun (α : Type) where
  /-- Pass 1: every article with its cheap fallback score, sorted descending. -/
  sorted : List (α × ℚ)
  /-- The cap on oracle calls at this call site. -/
  budget : ℕ
  /-- Pass 2: the sorted list with the top `budget` entries re-scored by the
  oracle, the rest keeping their pass-1 fallback value. -/
  rescored : List (α × ℝ)
  /-- The articles for which an oracle request was issued. -/
  invoked : List α

/-- The two-pass loop shared by both call sites: pass 1 assigns
`_calculate_persona_relevance_fallback` to every article and sorts descending
(`articles.sort(key=..., reverse=True)`, a stable sort, modelled by stable
insertion sort), then pass 2 overwrites `relevance_score` of the first
`min(len(articles), kBound)` entries with the oracle-backed combined score. -/
def twoPassRescore (kBound : ℕ) (articles : List α) (fallback : α → ℚ)
    (oracle : α → ℝ) : TwoPassRun α :=
  let pass1 := articles.map (fun a => (a, fallback a))
  let sorted := pass1.insertionSort (fun x y => y.2 ≤ x.2)
  let cap := min articles.length kBound
  { sorted := sorted
    budget := cap
    rescored := (sorted.take cap).map (fun as => (as.1, oracle as.1)) ++
      (sorted.drop cap).map (fun as => (as.1, (as.2 : ℝ)))
    invoked := (sorted.take cap).map Prod.fst }

/-- The bounded top-N call site (`articles.py` lines 309-329):
`llm_scoring_limit = min(len(articles), int(limit * 1.5))`.  For `limit` an
int (capped at 500 by the query validator), `limit * 1.5` is exact in binary
floating point and `int` truncates, so `int(limit * 1.5) = 3 * limit / 2` in
natural floor division. -/
def twoPassTopN (articles : List α) (fallback : α → ℚ) (oracle : α → ℝ)
    (limit : ℕ) : TwoPassRun α :=
  twoPassRescore (3 * limit / 2) articles fallback oracle

/-- The expanded-fetch call site (`articles.py` lines 366-387):
`llm_candidates = min(len(expanded_articles), limit * 2)`. -/
def twoPassExpanded (articles : List α) (fallback : α → ℚ) (oracle : α → ℝ)
    (limit : ℕ) : TwoPassRun α :=
  twoPassRescore (limit * 2) articles fallback oracle

/-! ## BatchOrchestrator (`backend/app/workers/tasks.py`,
`batch_score_articles_async`) -/

/-- One Redis write against the job's hash key, one constructor per distinct
`hset` call in the source.  `initJob` is the single `hset(..., mapping=...)`
multi-field write issued on job start. -/
inductive StoreOp where
  | initJob (total : ℕ)
  | setProcessed (n : ℕ)
  | setResults (rs : List (ℕ × ℚ))
  | setStatus (s : String)
  | setError (e : String)
deriving Repr, DecidableEq

/-- The job's progress hash under `article_scoring:{task_id}`. -/
structure JobDoc where
  total : ℕ
  processed : ℕ
  results : List (ℕ × ℚ)
  status : String
  error : Option String
deriving Repr, DecidableEq

/-- The hash before any write: every field reads as zero/empty. -/
def emptyDoc : JobDoc :=
  { total := 0, processed := 0, results := [], status := "", error := none }

/-- Effect of one write on the stored hash. -/
def applyOp (d : JobDoc) : StoreOp → JobDoc
  | .initJob n =>
    { d with total := n, processed := 0, results := [], status := "processing" }
  | .setProcessed n => { d with processed := n }
  | .setResults rs => { d with results := rs }
  | .setStatus s => { d with status := s }
  | .setError e => { d with error := some e }

/-- The worker's in-process accumulators `all_results` and `total_processed`. -/
structure ChunkAcc where
  allResults : List (ℕ × ℚ)
  totalProcessed : ℕ
deriving Repr, DecidableEq

/-- `db.query(Article).filter(Article.id.in_(batch)).all()`: one row per
distinct requested id that exists, in request order. -/
def chunkArticles (db : ℕ → Option Article) (chunk : List ℕ) : List Article :=
  chunk.dedup.filterMap db

/-- The body of the per-chunk loop (`tasks.py` lines 374-440).  The article
fetch (`db.query(...).all()`, lines 380-381) sits INSIDE the outer `try` but
OUTSIDE the inner per-chunk `try` (which only starts at line 390), so a
database exception during the fetch (`fetchFail chunk = some e`) propagates
out of the loop and aborts the whole job — modelled as `Except.error`.  On a
successful fetch: skip the chunk when no ids resolve; score the articles
(`score` returns `none` when `calculate_combined_relevance_scores_batch`
raises inside the inner `try`, in which case the error is logged, a short
backoff is slept, and the loop moves on with no store write); pair each
article with its score (`if i < len(scores)` truncation is `List.zip`);
extend the accumulators and issue the chunk's two store writes: first
`processed`, then `results`. -/
def chunkOps (db : ℕ → Option Article) (fetchFail : List ℕ → Option String)
    (score : List Article → Option (List ℚ)) (acc : ChunkAcc)
    (chunk : List ℕ) : Except String (List StoreOp × ChunkAcc) :=
  match fetchFail chunk with
  | some e => Except.error e
  | none =>
    let arts := chunkArticles db chunk
    if arts.isEmpty then Except.ok ([], acc)
    else
      match score arts with
      | none => Except.ok ([], acc)
      | some scores =>
        let batchResults := (arts.zip scores).map (fun p => (p.1.id, p.2))
        let allResults := acc.allResults ++ batchResults
        let processedCount := acc.totalProcessed + batchResults.length
        Except.ok
          ([StoreOp.setProcessed processedCount, StoreOp.setResults allResults],
           { allResults := allResults, totalProcessed := processedCount })

/-- What one run of the chunk loop leaves behind: the store writes it issued
in program order, the in-process accumulators when the loop stopped, and the
exception that escaped the loop, if any. -/
structure RunState where
  ops : List StoreOp
  acc : ChunkAcc
  fail : Option String
deriving Repr, DecidableEq

/-- The chunk loop itself, threading the accumulators and collecting the
store writes in program order; an exception escaping a chunk's fetch stops
the loop immediately (no further chunk is processed, no further write is
issued) and is reported in `fail`. -/
def runChunks (db : ℕ → Option Article) (fetchFail : List ℕ → Option String)
    (score : List Article → Option (List ℚ)) :
    ChunkAcc → List (List ℕ) → RunState
  | acc, [] => { ops := [], acc := acc, fail := none }
  | acc, c :: rest =>
    match chunkOps db fetchFail score acc c with
    | Except.error e => { ops := [], acc := acc, fail := some e }
    | Except.ok r =>
      let rr := runChunks db fetchFail score r.2 rest
      { ops := r.1 ++ rr.ops, acc := rr.acc, fail := rr.fail }

/-- `batch_score_articles_async(article_ids, persona)` as the sequence of
store writes it issues.  `initFail = some e` models an exception raised
before the chunk loop starts (e.g. the initial store write failing); the
task's single outer `except` clause (line 454) turns ANY exception it
catches — whether before the loop or escaping a chunk's article fetch
mid-run — into `status = failed` plus an `error` field, leaving the writes
already issued in place.  When no exception escapes, the job writes the
initial document, runs every 100-id chunk, and finally marks the job
completed. -/
def batchScoreOps (ids : List ℕ) (db : ℕ → Option Article)
    (fetchFail : List ℕ → Option String)
    (score : List Article → Option (List ℚ)) (initFail : Option String) :
    List StoreOp :=
  match initFail with
  | some e => [StoreOp.setStatus "failed", StoreOp.setError e]
  | none =>
    let r := runChunks db fetchFail score
      { allResults := [], totalProcessed := 0 } (pyChunks 100 ids)
    match r.fail with
    | none => StoreOp.initJob ids.length :: r.ops ++ [StoreOp.setStatus "completed"]
    | some e => StoreOp.initJob ids.length :: r.ops ++
        [StoreOp.setStatus "failed", StoreOp.setError e]

/-- Every store state a concurrent reader can observe along a write trace
(including the pristine state before the first write). -/
def storeStates (ops : List StoreOp) : List JobDoc := ops.scanl applyOp emptyDoc

/-- The store state after a write trace has fully executed. -/
def finalDoc (ops : List StoreOp) : JobDoc := ops.foldl applyOp emptyDoc

/-- Modelled from the spec: the chunk scorer
`ArticleProcessor.calculate_combined_relevance_scores_batch` is absent from
the provided sources (only its callers in `tasks.py` and
`api/endpoints/articles.py` appear).  Per spec §4.1, `ScoreBatch(articles,
persona, useOracle)` returns one combined score per input article, in input
order, absorbing oracle failures into fallback values rather than raising. -/
def specScoreBatch (scoreOne : Article → ℚ) (arts : List Article) :
    Option (List ℚ) :=
  some (arts.map scoreOne)

/-! ## Status polling (`backend/app/api/endpoints/articles.py`,
`get_batch_score_status`) -/

/-- The response document of `GET /batch-score-status/{task_id}`.
`lastUpdated` carries the `get_articles_timestamp(db)` value every returned
document includes; wall-clock timing metadata (`query_time`,
`articles_per_second`) stays outside the model. -/
structure StatusDoc where
  status : String
  message : Option String
  processed : ℕ
  total : ℕ
  progressPercentage : ℤ
  results : List (ℕ × ℚ)
  lastUpdated : String
  error : Option String
deriving Repr, DecidableEq

/-- `get_batch_score_status`, lines 524-617.  Every branch of the endpoint —
the absent-key synthetic `expired` document (line 548), the normal document
(line 591), and the `except` clause's `error` document (line 615) — calls
`get_articles_timestamp(db)` for its `last_updated` field; that helper only
catches `NoResultFound` (`db/utils.py`), so when the database is unreachable
(`timestamp = Except.error e`) the call raises, the `except` clause's own
call raises again, and the exception propagates out of the handler: the
endpoint throws (`Except.error`) instead of returning a document.  When the
timestamp read succeeds: a Redis failure (`redisFail = some msg`) reaches
the `except` clause, which returns the `error` document; an absent hash key
yields the synthetic `expired` document; otherwise the stored fields plus
`progress_percentage = round((processed / total) * 100)`, guarded to `0`
when `total == 0`. -/
def getBatchScoreStatus (taskId : String) (store : Option JobDoc)
    (redisFail : Option String) (timestamp : Except String String) :
    Except String StatusDoc :=
  let handler : String → Except String StatusDoc := fun msg =>
    match timestamp with
    | Except.error e2 => Except.error e2
    | Except.ok ts =>
      Except.ok
        { status := "error",
          message := some ("Error retrieving task status: " ++ msg),
          processed := 0, total := 0, progressPercentage := 0, results := [],
          lastUpdated := ts, error := some msg }
  match redisFail with
  | some msg => handler msg
  | none =>
    match timestamp with
    | Except.error e => handler e
    | Except.ok ts =>
      match store with
      | none =>
        Except.ok
          { status := "expired",
            message := some ("Task " ++ taskId ++
              " not found or expired. Results may already be available."),
            processed := 0, total := 0, progressPercentage := 0, results := [],
            lastUpdated := ts, error := some "Task expired or not found" }
      | some d =>
        Except.ok
          { status := d.status, message := none, processed := d.processed,
            total := d.total,
            progressPercentage :=
              if 0 < d.total then
                pyRound (((d.processed : ℚ) / (d.total : ℚ)) * 100)
              else 0,
            results := d.results, lastUpdated := ts, error := d.error }

/-- Statuses the batch task itself writes to the store along a trace. -/
def writtenStatuses (ops : List StoreOp) : List String :=
  ops.filterMap fun op =>
    match op with
    | .initJob _ => some "processing"
    | .setStatus s => some s
    | _ => none

/-! ## Helper lemmas -/

theorem clampQ_bounds (x : ℚ) : 0 ≤ max 0 (min 1 x) ∧ max 0 (min 1 x) ≤ 1 :=
  ⟨le_max_left 0 (min 1 x), max_le (by norm_num) (min_le_left 1 x)⟩

theorem recencyScore_le_one (d : ℤ) : recencyScore d ≤ 1 := by
  unfold recencyScore
  rw [Real.exp_le_one_iff]
  have h0 : (0 : ℝ) ≤ ((max 0 d : ℤ) : ℝ) := by
    exact_mod_cast le_max_left 0 d
  nlinarith

theorem recencyScore_nonneg (d : ℤ) : 0 ≤ recencyScore d :=
  (Real.exp_pos _).le

theorem articleRecencyScore_bounds (a : Article) (now : ℤ) :
    0 ≤ articleRecencyScore a now ∧ articleRecencyScore a now ≤ 1 := by
  unfold articleRecencyScore
  cases a.publishedAt with
  | none => norm_num
  | some t => exact ⟨recencyScore_nonneg _, recencyScore_le_one _⟩

/-- The sample persona/article pair scores 0 under the fallback heuristic:
no keyword of the company name occurs in the article text, and every other
component is switched off by its empty attribute. -/
theorem fallback_sample_zero :
    fallbackPersonaScore sampleArticle samplePersona = 0 := by
  have e1 : samplePersona.jobTitle = "" := rfl
  have e2 : samplePersona.company = "qqqq" := rfl
  have e3 : samplePersona.conversationContext = "" := rfl
  have he : ("" : String).isEmpty = true := rfl
  have hq : ("qqqq" : String).isEmpty = false := rfl
  have h1 : pyIn (pyLower "qqqq") (articleContent sampleArticle) = false := by
    decide
  have h2 : pySplit (pyLower "qqqq") = ["qqqq"] := by decide
  have h3 : (List.filter
      (fun t => decide (t.length > 3) && pyIn t (articleContent sampleArticle))
      ["qqqq"]).length = 0 := by decide
  simp [fallbackPersonaScore, e1, e2, e3, he, hq, h1, h2, h3]
  norm_num [inf_eq_min, min_def]

/-- A chunk either raises out of its article fetch, or writes nothing (no
resolvable articles, or a scoring error absorbed by the inner `try`), or
writes exactly the pair `setProcessed` / `setResults` extending the
accumulators by one batch. -/
theorem chunkOps_shape (db : ℕ → Option Article)
    (fetchFail : List ℕ → Option String)
    (score : List Article → Option (List ℚ)) (acc : ChunkAcc)
    (chunk : List ℕ) :
    (∃ e, chunkOps db fetchFail score acc chunk = Except.error e) ∨
    chunkOps db fetchFail score acc chunk = Except.ok ([], acc) ∨
    ∃ br : List (ℕ × ℚ),
      chunkOps db fetchFail score acc chunk =
        Except.ok ([StoreOp.setProcessed (acc.totalProcessed + br.length),
          StoreOp.setResults (acc.allResults ++ br)],
         { allResults := acc.allResults ++ br,
           totalProcessed := acc.totalProcessed + br.length }) := by
  simp only [chunkOps]
  split
  · exact Or.inl ⟨_, rfl⟩
  · split
    · exact Or.inr (Or.inl rfl)
    · split
      · exact Or.inr (Or.inl rfl)
      · exact Or.inr (Or.inr ⟨_, rfl⟩)

/-- The chunk loop writes no status operation. -/
theorem writtenStatuses_runChunks (db : ℕ → Option Article)
    (fetchFail : List ℕ → Option String)
    (score : List Article → Option (List ℚ)) :
    ∀ (cs : List (List ℕ)) (acc : ChunkAcc),
      writtenStatuses (runChunks db fetchFail score acc cs).ops = [] := by
  intro cs
  induction cs with
  | nil => intro acc; rfl
  | cons c rest ih =>
    intro acc
    rcases chunkOps_shape db fetchFail score acc c with ⟨e, h⟩ | h | ⟨br, h⟩
    · simp [runChunks, h, writtenStatuses]
    · have h2 := ih acc
      simp [runChunks, h, writtenStatuses] at h2 ⊢
      exact h2
    · have h2 := ih { allResults := acc.allResults ++ br,
                      totalProcessed := acc.totalProcessed + br.length }
      simp [runChunks, h, writtenStatuses] at h2 ⊢
      exact h2

/-- The number of oracle requests a two-pass run issues is the lesser of the
candidate count and the call site's cap. -/
theorem twoPassRescore_invoked_length {α : Type} (kBound : ℕ)
    (articles : List α) (fallback : α → ℚ) (oracle : α → ℝ) :
    (twoPassRescore kBound articles fallback oracle).invoked.length
      = min articles.length kBound := by
  unfold twoPassRescore
  simp only [List.length_map, List.length_take, List.length_insertionSort]
  omega

/-- Everything past the oracle budget in a two-pass run keeps its pass-1
fallback score. -/
theorem twoPassRescore_drop_budget {α : Type} (kBound : ℕ)
    (articles : List α) (fallback : α → ℚ) (oracle : α → ℝ) :
    (twoPassRescore kBound articles fallback oracle).rescored.drop
        (twoPassRescore kBound articles fallback oracle).budget
      = ((twoPassRescore kBound articles fallback oracle).sorted.drop
          (twoPassRescore kBound articles fallback oracle).budget).map
          (fun as => (as.1, (as.2 : ℝ))) := by
  unfold twoPassRescore
  simp only []
  have hlen : ((((articles.map (fun a => (a, fallback a))).insertionSort
      (fun x y => y.2 <= x.2)).take (min articles.length kBound)).map
      (fun as => (as.1, oracle as.1))).length = min articles.length kBound := by
    simp only [List.length_map, List.length_take, List.length_insertionSort]
    omega
  rw [List.drop_append_of_le_length (le_of_eq hlen.symm),
    List.drop_eq_nil_of_le (le_of_eq hlen), List.nil_append]

/-- A non-empty list is not `isEmpty`. -/
theorem isEmpty_false_of_ne_nil {β : Type} {l : List β} (h : l ≠ []) :
    l.isEmpty = false := by
  cases l with
  | nil => exact absurd rfl h
  | cons x xs => rfl

/-- When every element resolves, `filterMap` preserves length. -/
theorem length_filterMap_of_forall_isSome {β γ : Type} (f : β → Option γ) :
    ∀ l : List β, (∀ x ∈ l, (f x).isSome) → (l.filterMap f).length = l.length := by
  intro l
  induction l with
  | nil => intro _; rfl
  | cons x t ih =>
    intro h
    obtain ⟨b, hb⟩ := Option.isSome_iff_exists.mp (h x (List.mem_cons_self x t))
    simp [List.filterMap_cons, hb, ih (fun y hy => h y (List.mem_cons_of_mem x hy))]

/-- Concatenating the chunks gives back the original list (enough fuel). -/
theorem pyChunksF_join {n : ℕ} (hn : n ≠ 0) :
    ∀ (fuel : ℕ) (l : List α), l.length ≤ fuel →
      (pyChunksF fuel n l).flatten = l := by
  intro fuel
  induction fuel with
  | zero =>
    intro l hl
    rw [List.length_eq_zero.mp (Nat.le_zero.mp hl)]
    rfl
  | succ f ih =>
    intro l hl
    rw [pyChunksF]
    split
    · rename_i h
      rcases h with h | h
      · rw [List.length_eq_zero.mp h]; rfl
      · exact absurd h hn
    · rename_i h
      push_neg at h
      have hdrop : (l.drop n).length ≤ f := by
        rw [List.length_drop]
        omega
      simp only [List.flatten_cons, ih (l.drop n) hdrop, List.take_append_drop]

/-- Concatenating the chunks gives back the original list. -/
theorem pyChunks_join {n : ℕ} (hn : n ≠ 0) (l : List α) :
    (pyChunks n l).flatten = l :=
  pyChunksF_join hn l.length l le_rfl

/-- Every chunk is a non-empty sublist of the input (enough fuel). -/
theorem pyChunksF_mem {n : ℕ} (hn : n ≠ 0) :
    ∀ (fuel : ℕ) (l : List α), l.length ≤ fuel →
      ∀ c ∈ pyChunksF fuel n l, c.Sublist l ∧ c ≠ [] := by
  intro fuel
  induction fuel with
  | zero =>
    intro l hl c hc
    rw [List.length_eq_zero.mp (Nat.le_zero.mp hl)] at hc
    simp [pyChunksF] at hc
  | succ f ih =>
    intro l hl c hc
    rw [pyChunksF] at hc
    split at hc
    · simp at hc
    · rename_i h
      push_neg at h
      obtain ⟨h1, h2⟩ := h
      rcases List.mem_cons.mp hc with rfl | htail
      · refine ⟨List.take_sublist n l, ?_⟩
        intro hnil
        have := congrArg List.length hnil
        rw [List.length_take, List.length_nil] at this
        omega
      · have hdrop : (l.drop n).length ≤ f := by
          rw [List.length_drop]
          omega
        obtain ⟨hsub, hne⟩ := ih (l.drop n) hdrop c htail
        exact ⟨hsub.trans (List.drop_sublist n l), hne⟩

/-- Every chunk is a non-empty sublist of the input. -/
theorem pyChunks_mem {n : ℕ} (hn : n ≠ 0) (l : List α) :
    ∀ c ∈ pyChunks n l, c.Sublist l ∧ c ≠ [] :=
  pyChunksF_mem hn l.length l le_rfl

/-- Folding the chunk loop's writes over a store state that agrees with the
in-process accumulators yields the accumulators at the point the loop
stopped (normally or by a propagating fetch exception), leaving `status`,
`total` and `error` untouched. -/
theorem runChunks_doc (db : ℕ → Option Article)
    (fetchFail : List ℕ → Option String)
    (score : List Article → Option (List ℚ)) :
    ∀ (cs : List (List ℕ)) (acc : ChunkAcc) (d : JobDoc),
      d.processed = acc.totalProcessed → d.results = acc.allResults →
      ((runChunks db fetchFail score acc cs).ops.foldl applyOp d).processed
          = (runChunks db fetchFail score acc cs).acc.totalProcessed
      ∧ ((runChunks db fetchFail score acc cs).ops.foldl applyOp d).results
          = (runChunks db fetchFail score acc cs).acc.allResults
      ∧ ((runChunks db fetchFail score acc cs).ops.foldl applyOp d).status
          = d.status
      ∧ ((runChunks db fetchFail score acc cs).ops.foldl applyOp d).total
          = d.total
      ∧ ((runChunks db fetchFail score acc cs).ops.foldl applyOp d).error
          = d.error := by
  intro cs
  induction cs with
  | nil =>
    intro acc d h1 h2
    simp [runChunks]
    exact ⟨h1, h2⟩
  | cons c rest ih =>
    intro acc d h1 h2
    rcases chunkOps_shape db fetchFail score acc c with ⟨e, h⟩ | h | ⟨br, h⟩
    · simp [runChunks, h]
      exact ⟨h1, h2⟩
    · have h3 := ih acc d h1 h2
      simpa [runChunks, h] using h3
    · have h3 := ih
        { allResults := acc.allResults ++ br,
          totalProcessed := acc.totalProcessed + br.length }
        { d with processed := acc.totalProcessed + br.length,
                 results := acc.allResults ++ br } rfl rfl
      simp [runChunks, h, List.foldl_append, applyOp] at h3 ⊢
      exact h3

/-- The in-process accumulators stay consistent: the result list is exactly
as long as the processed counter, whether or not the loop was aborted by a
fetch exception. -/
theorem runChunks_len (db : ℕ → Option Article)
    (fetchFail : List ℕ → Option String)
    (score : List Article → Option (List ℚ)) :
    ∀ (cs : List (List ℕ)) (acc : ChunkAcc),
      acc.allResults.length = acc.totalProcessed →
      (runChunks db fetchFail score acc cs).acc.allResults.length
        = (runChunks db fetchFail score acc cs).acc.totalProcessed := by
  intro cs
  induction cs with
  | nil =>
    intro acc h
    simpa [runChunks] using h
  | cons c rest ih =>
    intro acc h
    rcases chunkOps_shape db fetchFail score acc c with ⟨e, hc⟩ | hc | ⟨br, hc⟩
    · simpa [runChunks, hc] using h
    · have h3 := ih acc h
      simpa [runChunks, hc] using h3
    · have h3 := ih
        { allResults := acc.allResults ++ br,
          totalProcessed := acc.totalProcessed + br.length }
        (by simp [h])
      simpa [runChunks, hc] using h3

/-- When every chunk is non-empty, duplicate-free, fully resolvable, its
fetch succeeds, and the scorer returns one score per article, each chunk
contributes exactly its length to the processed counter and no exception
escapes the loop. -/
theorem runChunks_processed (db : ℕ → Option Article)
    (fetchFail : List ℕ → Option String)
    (score : List Article → Option (List ℚ))
    (hscore : ∀ arts, ∃ s, score arts = some s ∧ s.length = arts.length) :
    ∀ (cs : List (List ℕ)) (acc : ChunkAcc),
      (∀ c ∈ cs, c.Nodup ∧ (∀ i ∈ c, (db i).isSome) ∧ c ≠ [] ∧
        fetchFail c = none) →
      (runChunks db fetchFail score acc cs).acc.totalProcessed
          = acc.totalProcessed + (cs.map List.length).sum
      ∧ (runChunks db fetchFail score acc cs).fail = none := by
  intro cs
  induction cs with
  | nil =>
    intro acc _
    simp [runChunks]
  | cons c rest ih =>
    intro acc h
    obtain ⟨hnd, hsome, hne, hfetch⟩ := h c (List.mem_cons_self c rest)
    have harts : chunkArticles db c = c.filterMap db := by
      unfold chunkArticles
      rw [List.dedup_eq_self.mpr hnd]
    have hlen : (chunkArticles db c).length = c.length := by
      rw [harts]
      exact length_filterMap_of_forall_isSome db c hsome
    have hne2 : (chunkArticles db c).isEmpty = false := by
      refine isEmpty_false_of_ne_nil ?_
      intro hnil
      apply hne
      have := congrArg List.length hnil
      rw [hlen] at this
      exact List.length_eq_zero.mp this
    obtain ⟨s, hs, hsl⟩ := hscore (chunkArticles db c)
    have hchunk : chunkOps db fetchFail score acc c = Except.ok
        ([StoreOp.setProcessed (acc.totalProcessed +
            (((chunkArticles db c).zip s).map (fun p => (p.1.id, p.2))).length),
          StoreOp.setResults (acc.allResults ++
            ((chunkArticles db c).zip s).map (fun p => (p.1.id, p.2)))],
         { allResults := acc.allResults ++
             ((chunkArticles db c).zip s).map (fun p => (p.1.id, p.2)),
           totalProcessed := acc.totalProcessed +
             (((chunkArticles db c).zip s).map (fun p => (p.1.id, p.2))).length }) := by
      simp [chunkOps, hfetch, hne2, hs]
    have hblen :
        (((chunkArticles db c).zip s).map (fun p => (p.1.id, p.2))).length
          = c.length := by
      simp [List.length_zip, hlen, hsl]
    have hrest := ih
      { allResults := acc.allResults ++
          ((chunkArticles db c).zip s).map (fun p => (p.1.id, p.2)),
        totalProcessed := acc.totalProcessed +
          (((chunkArticles db c).zip s).map (fun p => (p.1.id, p.2))).length }
      (fun c2 hc2 => h c2 (List.mem_cons_of_mem c hc2))
    simp only [runChunks, hchunk]
    refine ⟨?_, hrest.2⟩
    rw [hrest.1, hblen]
    simp [List.sum_cons]
    omega

/-- A chunk whose fetch succeeds never raises: scoring errors are absorbed
by the inner `try`. -/
theorem chunkOps_ok_of_fetch_none (db : ℕ → Option Article)
    (fetchFail : List ℕ → Option String)
    (score : List Article → Option (List ℚ)) (acc : ChunkAcc)
    (chunk : List ℕ) (hf : fetchFail chunk = none) :
    ∃ r, chunkOps db fetchFail score acc chunk = Except.ok r := by
  simp only [chunkOps, hf]
  split
  · exact ⟨_, rfl⟩
  · split
    · exact ⟨_, rfl⟩
    · exact ⟨_, rfl⟩

/-- When every chunk's fetch succeeds, no exception escapes the loop,
whatever the scorer does. -/
theorem runChunks_fail_none (db : ℕ → Option Article)
    (fetchFail : List ℕ → Option String)
    (score : List Article → Option (List ℚ)) :
    ∀ (cs : List (List ℕ)) (acc : ChunkAcc),
      (∀ c ∈ cs, fetchFail c = none) →
      (runChunks db fetchFail score acc cs).fail = none := by
  intro cs
  induction cs with
  | nil => intro acc _; rfl
  | cons c rest ih =>
    intro acc h
    obtain ⟨r, hr⟩ := chunkOps_ok_of_fetch_none db fetchFail score acc c
      (h c (List.mem_cons_self c rest))
    simp [runChunks, hr]
    exact ih r.2 (fun c2 hc2 => h c2 (List.mem_cons_of_mem c hc2))

/-! ## Claims -/

/-- C5: the recency score is `exp(-0.5 * max(0, days_old))` with `days_old` in
whole days; an article published now scores exactly 1.0, the score is strictly
decreasing in elapsed whole days, always lies in [0,1], and an article with no
known published timestamp scores 0.0. -/
theorem c5_recency_score_spec :
    (∀ (a : Article) (now : ℤ), a.publishedAt = none →
      articleRecencyScore a now = 0)
  ∧ (∀ (a : Article) (now : ℤ), a.publishedAt = some now →
      articleRecencyScore a now = 1)
  ∧ (∀ d : ℤ, 0 ≤ recencyScore d ∧ recencyScore d ≤ 1)
  ∧ (∀ d₁ d₂ : ℤ, 0 ≤ d₁ → d₁ < d₂ → recencyScore d₂ < recencyScore d₁) := by
  refine ⟨?_, ?_, ?_, ?_⟩
  · intro a now h
    unfold articleRecencyScore
    rw [h]
  · intro a now h
    unfold articleRecencyScore
    rw [h]
    show recencyScore (daysOld now now) = 1
    unfold daysOld recencyScore
    norm_num [Int.fdiv]
  · intro d
    exact ⟨recencyScore_nonneg d, recencyScore_le_one d⟩
  · intro d₁ d₂ h1 h2
    unfold recencyScore
    rw [Real.exp_lt_exp]
    have e1 : max 0 d₁ = d₁ := max_eq_right h1
    have e2 : max 0 d₂ = d₂ := max_eq_right (le_trans h1 h2.le)
    rw [e1, e2]
    have : (d₁ : ℝ) < (d₂ : ℝ) := by exact_mod_cast h2
    nlinarith

/-- Witness for C5: a concrete fresh article scores 1 and one extra elapsed
day strictly lowers the score. -/
theorem c5_recency_score_spec_witness :
    articleRecencyScore
      { id := 1, title := none, summary := none, industry := none,
        publishedAt := some 0 } 0 = 1
  ∧ recencyScore 1 < recencyScore 0 :=
  ⟨c5_recency_score_spec.2.1 _ 0 rfl,
   c5_recency_score_spec.2.2.2 0 1 (by norm_num) (by norm_num)⟩

/-- C6: the combined score is `0.3*recency + 0.7*persona` clamped to [0,1],
monotone in both arguments, in [0,1] for all inputs, and with no persona the
combined operation returns the pure recency score. -/
theorem c6_combined_score_spec :
    (∀ r p r' : ℝ, r ≤ r' → combineScores r p ≤ combineScores r' p)
  ∧ (∀ r p p' : ℝ, p ≤ p' → combineScores r p ≤ combineScores r p')
  ∧ (∀ r p : ℝ, 0 ≤ combineScores r p ∧ combineScores r p ≤ 1)
  ∧ (∀ (a : Article) (now : ℤ) (oracle : OracleReply),
      combinedRelevanceScore a none now oracle = articleRecencyScore a now) := by
  refine ⟨?_, ?_, ?_, ?_⟩
  · intro r p r' h
    unfold combineScores clamp01
    have : 0.3 * r + 0.7 * p ≤ 0.3 * r' + 0.7 * p := by nlinarith
    exact max_le_max le_rfl (min_le_min le_rfl this)
  · intro r p p' h
    unfold combineScores clamp01
    have : 0.3 * r + 0.7 * p ≤ 0.3 * r + 0.7 * p' := by nlinarith
    exact max_le_max le_rfl (min_le_min le_rfl this)
  · intro r p
    unfold combineScores clamp01
    exact ⟨le_max_left _ _, max_le (by norm_num) (min_le_left _ _)⟩
  · intro a now oracle
    rfl

/-- Witness for C6: monotonicity applied at concrete recency inputs 0 ≤ 1. -/
theorem c6_combined_score_spec_witness :
    combineScores 0 0 ≤ combineScores 1 0 :=
  c6_combined_score_spec.1 0 0 1 (by norm_num)

/-- C7 counterexample: a persona whose only non-empty attribute is the company
name `"qqqq"`, matched against an article not containing it, gets fallback
score 0, below the claimed floor of 0.3. -/
theorem c7_fallback_floor_counterexample :
    fallbackPersonaScore sampleArticle samplePersona = 0
  ∧ samplePersona.company ≠ ""
  ∧ ¬((3 : ℚ) / 10 ≤ fallbackPersonaScore sampleArticle samplePersona) := by
  refine ⟨fallback_sample_zero, by decide, ?_⟩
  rw [fallback_sample_zero]
  norm_num

/-- C7 (amended): the fallback persona score always lies in [0, 1]; the code
has no overall floor of 0.3 (0.3 only appears as the industry-mismatch
component), so the lower bound is 0 even when persona attributes are
non-empty. -/
theorem c7_fallback_bounds_amended (a : Article) (p : Persona) :
    0 ≤ fallbackPersonaScore a p ∧ fallbackPersonaScore a p ≤ 1 :=
  clampQ_bounds _

/-- C10: when the article is missing its title or its summary, the
oracle-backed persona-relevance operation returns exactly 0.5 immediately,
issuing no oracle request and never consulting the fallback heuristic. -/
theorem c10_missing_fields_default (a : Article) (p : Persona)
    (oracle : OracleReply)
    (h : strTruthy a.title = false ∨ strTruthy a.summary = false) :
    personaRelevanceScore a p oracle =
      { score := 0.5, oracleRequests := 0, fallbackUses := 0 } := by
  unfold personaRelevanceScore
  rcases h with h | h <;> simp [h]

/-- Witness for C10: an article with a summary but no title scores 0.5 with
zero oracle requests and zero fallback uses. -/
theorem c10_missing_fields_default_witness :
    personaRelevanceScore
      { id := 1, title := none, summary := some "s", industry := none,
        publishedAt := none }
      { recipientName := "", jobTitle := "cto", company := "",
        conversationContext := "", personalityTraits := "" }
      (Except.ok "0.9") =
      { score := 0.5, oracleRequests := 0, fallbackUses := 0 } :=
  c10_missing_fields_default _ _ _ (Or.inl rfl)

/-- C8 counterexample: when the articles-timestamp read fails (database
unreachable), `get_articles_timestamp` raises in the try body and again
inside the poll's own `except` clause, so the poll THROWS instead of
returning a status document — here for a task id that was never created. -/
theorem c8_throws_counterexample :
    getBatchScoreStatus "task-1" none none (Except.error "db down")
      = Except.error "db down" := rfl

/-- C8 (amended): when the articles-timestamp read succeeds, polling never
throws and always yields a well-formed document: an absent (never created or
TTL-expired) key yields the synthetic `expired` document with zeroed fields,
`progress_percentage` equals `round(100 * processed/total)` with `0` returned
when `total == 0`, and even a failed Redis read yields a complete `error`
document; but when the timestamp read fails, the exception raised again
inside the `except` clause propagates and the poll throws. -/
theorem c8_status_poll_amended :
    (∀ (taskId ts : String),
      getBatchScoreStatus taskId none none (Except.ok ts) = Except.ok
        { status := "expired",
          message := some ("Task " ++ taskId ++
            " not found or expired. Results may already be available."),
          processed := 0, total := 0, progressPercentage := 0, results := [],
          lastUpdated := ts, error := some "Task expired or not found" })
  ∧ (∀ (taskId ts : String) (d : JobDoc), 0 < d.total →
      getBatchScoreStatus taskId (some d) none (Except.ok ts) = Except.ok
        { status := d.status, message := none, processed := d.processed,
          total := d.total,
          progressPercentage :=
            pyRound (100 * (d.processed : ℚ) / (d.total : ℚ)),
          results := d.results, lastUpdated := ts, error := d.error })
  ∧ (∀ (taskId ts : String) (d : JobDoc), d.total = 0 →
      getBatchScoreStatus taskId (some d) none (Except.ok ts) = Except.ok
        { status := d.status, message := none, processed := d.processed,
          total := d.total, progressPercentage := 0,
          results := d.results, lastUpdated := ts, error := d.error })
  ∧ (∀ (taskId ts msg : String) (store : Option JobDoc),
      getBatchScoreStatus taskId store (some msg) (Except.ok ts) = Except.ok
        { status := "error",
          message := some ("Error retrieving task status: " ++ msg),
          processed := 0, total := 0, progressPercentage := 0, results := [],
          lastUpdated := ts, error := some msg })
  ∧ (∀ (taskId e : String) (store : Option JobDoc) (rf : Option String),
      getBatchScoreStatus taskId store rf (Except.error e)
        = Except.error e) := by
  refine ⟨fun _ _ => rfl, ?_, ?_, ?_, ?_⟩
  · intro taskId ts d h
    have harg : ((d.processed : ℚ) / (d.total : ℚ)) * 100
        = 100 * (d.processed : ℚ) / (d.total : ℚ) := by ring
    simp only [getBatchScoreStatus, if_pos h, harg]
  · intro taskId ts d h
    simp [getBatchScoreStatus, h]
  · intro taskId ts msg store
    rfl
  · intro taskId e store rf
    cases rf <;> rfl

/-- Witness for C8 (amended): with a readable timestamp, a job with 1 of 8
ids processed reports `round(100 * 1/8)` percent in a complete document. -/
theorem c8_status_poll_amended_witness :
    getBatchScoreStatus "task-1"
        (some { total := 8, processed := 1, results := [],
                status := "processing", error := none }) none
        (Except.ok "2024-01-01") = Except.ok
      { status := "processing", message := none, processed := 1, total := 8,
        progressPercentage := pyRound (100 * ((1 : ℕ) : ℚ) / ((8 : ℕ) : ℚ)),
        results := [], lastUpdated := "2024-01-01", error := none } :=
  c8_status_poll_amended.2.1 "task-1" "2024-01-01"
    { total := 8, processed := 1, results := [], status := "processing",
      error := none } (by norm_num)

/-- C9 counterexample: when the status read fails but the timestamp read
succeeds, the poll's `except` clause returns a document whose status is
`"error"`, which is outside the claimed status set
{processing, completed, failed, expired, not_found}. -/
theorem c9_status_set_counterexample :
    getBatchScoreStatus "task-1" none (some "connection refused")
        (Except.ok "2024-01-01")
      = Except.ok
        { status := "error",
          message := some ("Error retrieving task status: " ++
            "connection refused"),
          processed := 0, total := 0, progressPercentage := 0, results := [],
          lastUpdated := "2024-01-01", error := some "connection refused" }
  ∧ ("error" : String) ∉
      (["processing", "completed", "failed", "expired", "not_found"] :
        List String) := by
  exact ⟨rfl, by decide⟩

/-- C9 (amended): every status the orchestrator writes is in
{processing, completed, failed}, and whenever the poll returns a document at
all it either passes the stored status through or synthesizes `expired`
(absent key) or `error` (failed Redis read); so the observable set is
{processing, completed, failed, expired, error} — the code never produces
`not_found`. -/
theorem c9_status_set_amended :
    (∀ (ids : List ℕ) (db : ℕ → Option Article)
        (fetchFail : List ℕ → Option String)
        (score : List Article → Option (List ℚ)) (initFail : Option String),
      ∀ s ∈ writtenStatuses (batchScoreOps ids db fetchFail score initFail),
        s ∈ (["processing", "completed", "failed"] : List String))
  ∧ (∀ (taskId : String) (store : Option JobDoc) (rf : Option String)
        (ts : Except String String) (doc : StatusDoc),
      getBatchScoreStatus taskId store rf ts = Except.ok doc →
      doc.status ∈ (["expired", "error"] : List String)
      ∨ ∃ d, store = some d ∧ doc.status = d.status) := by
  constructor
  · intro ids db fetchFail score initFail s hs
    cases initFail with
    | some e =>
      simp [batchScoreOps, writtenStatuses] at hs
      simp [hs]
    | none =>
      have hrun := writtenStatuses_runChunks db fetchFail score
        (pyChunks 100 ids) { allResults := [], totalProcessed := 0 }
      unfold writtenStatuses at hrun hs
      rcases hfail : (runChunks db fetchFail score
          { allResults := [], totalProcessed := 0 }
          (pyChunks 100 ids)).fail with _ | e
      · simp [batchScoreOps, hfail, List.filterMap_append, hrun] at hs
        rcases hs with rfl | rfl <;> simp
      · simp [batchScoreOps, hfail, List.filterMap_append, hrun] at hs
        rcases hs with rfl | rfl <;> simp
  · intro taskId store rf ts doc hdoc
    cases rf with
    | some msg =>
      cases ts with
      | error e =>
        simp [getBatchScoreStatus] at hdoc
      | ok ts2 =>
        left
        simp only [getBatchScoreStatus, Except.ok.injEq] at hdoc
        rw [← hdoc]
        simp
    | none =>
      cases ts with
      | error e =>
        simp [getBatchScoreStatus] at hdoc
      | ok ts2 =>
        cases store with
        | none =>
          left
          simp only [getBatchScoreStatus, Except.ok.injEq] at hdoc
          rw [← hdoc]
          simp
        | some d =>
          right
          refine ⟨d, rfl, ?_⟩
          simp only [getBatchScoreStatus, Except.ok.injEq] at hdoc
          rw [← hdoc]

/-- Witness for C9 (amended): the first status written by a concrete job
trace is `processing`, inside the amended set. -/
theorem c9_status_set_amended_witness :
    ("processing" : String) ∈
      (["processing", "completed", "failed"] : List String) :=
  c9_status_set_amended.1 [] sampleDb (fun _ => none)
    (specScoreBatch (fun _ => 0)) none "processing" (by decide)

/-- C4 counterexample: for the cited combined-scoring site
(`calculate_combined_relevance_score`), a malformed oracle reply (`"high"`)
does NOT yield the fallback persona score: the sample pair's fallback score is
0, yet the combined score is 0.35 = clamp(0.3*0 + 0.7*0.5) — the code
substitutes the fixed default 0.5, and 0.35 differs from the 0 that
fallback substitution would give. -/
theorem c4_fixed_default_counterexample :
    combinedRelevanceScore sampleArticle (some samplePersona) 0
      (Except.ok "high") = 0.35
  ∧ fallbackPersonaScore sampleArticle samplePersona = 0
  ∧ combineScores (articleRecencyScore sampleArticle 0)
      ((fallbackPersonaScore sampleArticle samplePersona : ℚ) : ℝ) = 0
  ∧ (0.35 : ℝ) ≠ 0 := by
  have hp : pyFloat (pyStrip "high") = none := by decide
  have hrec : articleRecencyScore sampleArticle 0 = 0 := rfl
  refine ⟨?_, fallback_sample_zero, ?_, by norm_num⟩
  · simp only [combinedRelevanceScore, hp, hrec]
    norm_num [combineScores, clamp01, min_def, max_def]
  · rw [fallback_sample_zero, hrec]
    norm_num [combineScores, clamp01, min_def, max_def]

/-- C4 (amended): on a raised oracle exception or an unparseable oracle reply,
`_calculate_persona_relevance_score` returns the fallback heuristic score
(one oracle request, one fallback use), while
`calculate_combined_relevance_score` absorbs the failure but substitutes the
fixed default 0.5 — not the fallback score — as the persona component; in both
operations the failure is absorbed into a returned number, never propagated. -/
theorem c4_oracle_failure_amended (a : Article) (p : Persona)
    (hT : strTruthy a.title = true) (hS : strTruthy a.summary = true) :
    (∀ e : Unit, personaRelevanceScore a p (Except.error e)
      = { score := fallbackPersonaScore a p, oracleRequests := 1,
          fallbackUses := 1 })
  ∧ (∀ s : String, pyFloat (pyStrip s) = none →
      personaRelevanceScore a p (Except.ok s)
        = { score := fallbackPersonaScore a p, oracleRequests := 1,
            fallbackUses := 1 })
  ∧ (∀ (now : ℤ) (e : Unit),
      combinedRelevanceScore a (some p) now (Except.error e)
        = combineScores (articleRecencyScore a now) ((0.5 : ℚ) : ℝ))
  ∧ (∀ (now : ℤ) (s : String), pyFloat (pyStrip s) = none →
      combinedRelevanceScore a (some p) now (Except.ok s)
        = combineScores (articleRecencyScore a now) ((0.5 : ℚ) : ℝ)) := by
  refine ⟨?_, ?_, ?_, ?_⟩
  · intro e
    simp [personaRelevanceScore, hT, hS]
  · intro s h
    simp [personaRelevanceScore, hT, hS, h]
  · intro now e
    simp [combinedRelevanceScore]
  · intro now s h
    simp [combinedRelevanceScore, h]

/-- Witness for C4 (amended): the oracle-backed persona-relevance operation on
the sample pair with the malformed reply `"high"` returns the fallback score. -/
theorem c4_oracle_failure_amended_witness :
    personaRelevanceScore sampleArticle samplePersona (Except.ok "high")
      = { score := fallbackPersonaScore sampleArticle samplePersona,
          oracleRequests := 1, fallbackUses := 1 } :=
  (c4_oracle_failure_amended sampleArticle samplePersona rfl rfl).2.1 "high"
    (by decide)


/-- C3 counterexample: at the bounded top-N call site with `limit = 3` and 5
candidates, the code issues `min(5, int(3 * 1.5)) = min(5, 4) = 4` oracle
requests, not the claimed `min(5, ceil(3 * 1.5)) = 5`: the code truncates
(`int`), the claim rounds up (`ceil`). -/
theorem c3_ceil_k_counterexample :
    (twoPassTopN [0, 1, 2, 3, 4] (fun _ => (0 : ℚ)) (fun _ => (0 : ℝ))
      3).invoked.length = 4
  ∧ min ([0, 1, 2, 3, 4] : List ℕ).length ((3 * 3 + 1) / 2) = 5
  ∧ (4 : ℕ) ≠ 5 := by
  refine ⟨?_, by decide, by decide⟩
  unfold twoPassTopN
  rw [twoPassRescore_invoked_length]
  simp

/-- C3 (amended): the oracle-request count of a two-pass run never exceeds its
cap and is independent of the candidate count beyond it — but the bounded
top-N cap is `min(len(articles), int(1.5 * limit))` (truncation, `3*limit/2`
in floor division), not `ceil(1.5 * limit)`; the truncated count is still
bounded by the claimed `min(len, ceil(1.5*limit)) = min(len, (3*limit+1)/2)`.
The expanded-fetch cap is `min(len(articles), limit * 2)` as claimed, and at
both call sites every article outside the top-K keeps its pass-1 fallback
score. -/
theorem c3_two_pass_k_amended {α : Type} (articles : List α)
    (fallback : α → ℚ) (oracle : α → ℝ) (limit : ℕ) :
    (twoPassTopN articles fallback oracle limit).invoked.length
      = min articles.length (3 * limit / 2)
  ∧ (twoPassTopN articles fallback oracle limit).invoked.length
      ≤ min articles.length ((3 * limit + 1) / 2)
  ∧ (twoPassExpanded articles fallback oracle limit).invoked.length
      = min articles.length (limit * 2)
  ∧ (twoPassTopN articles fallback oracle limit).rescored.drop
        (twoPassTopN articles fallback oracle limit).budget
      = ((twoPassTopN articles fallback oracle limit).sorted.drop
          (twoPassTopN articles fallback oracle limit).budget).map
          (fun as => (as.1, (as.2 : ℝ)))
  ∧ (twoPassExpanded articles fallback oracle limit).rescored.drop
        (twoPassExpanded articles fallback oracle limit).budget
      = ((twoPassExpanded articles fallback oracle limit).sorted.drop
          (twoPassExpanded articles fallback oracle limit).budget).map
          (fun as => (as.1, (as.2 : ℝ))) := by
  refine ⟨?_, ?_, ?_, ?_, ?_⟩
  · exact twoPassRescore_invoked_length _ _ _ _
  · rw [twoPassTopN, twoPassRescore_invoked_length]
    exact min_le_min le_rfl (Nat.div_le_div_right (by omega))
  · exact twoPassRescore_invoked_length _ _ _ _
  · exact twoPassRescore_drop_budget _ _ _ _
  · exact twoPassRescore_drop_budget _ _ _ _


set_option maxRecDepth 40000 in
/-- C1 counterexample: the claim's "only a failure before any chunk starts
terminates the job as failed" is false of the code.  On 101 ids the first
100-id chunk completes and writes `processed = 100`; then the second chunk's
article fetch — which sits inside the outer `try` but outside the inner
per-chunk `try` — raises, the exception reaches the outer handler, and the
job ends `failed` mid-run, after a chunk had already completed. -/
theorem c1_mid_run_failure_counterexample :
    (finalDoc (batchScoreOps (List.range 101) sampleDbAll sampleFetchFail
        (specScoreBatch (fun _ => 0)) none)).status = "failed"
  ∧ (finalDoc (batchScoreOps (List.range 101) sampleDbAll sampleFetchFail
        (specScoreBatch (fun _ => 0)) none)).processed = 100
  ∧ (100 : ℕ) ≠ 0 := by
  refine ⟨by decide, by decide, by decide⟩

/-- C1 (amended): the job immediately records `{status: processing, total:
N, processed: 0, results: []}`; when every id resolves, every chunk's fetch
succeeds and the scorer returns one score per article, the final store state
is `completed` with `processed == N` and `N` results.  Chunk-level SCORING
errors (inside the inner per-chunk try) are absorbed and the run proceeds to
the next chunk, still ending `completed`; but an exception escaping a
chunk's article fetch (outside the inner try) terminates the job `failed`
even mid-run, keeping the writes already issued, and an initialization
failure likewise ends the job `failed`. -/
theorem c1_batch_job_amended (ids : List ℕ) (db : ℕ → Option Article)
    (fetchFail : List ℕ → Option String)
    (score : List Article → Option (List ℚ))
    (hids : ids.Nodup) (hdb : ∀ i ∈ ids, (db i).isSome)
    (hfetch : ∀ chunk, fetchFail chunk = none)
    (hscore : ∀ arts, ∃ s, score arts = some s ∧ s.length = arts.length) :
    (batchScoreOps ids db fetchFail score none).head?
      = some (StoreOp.initJob ids.length)
  ∧ applyOp emptyDoc (StoreOp.initJob ids.length)
      = { total := ids.length, processed := 0, results := [],
          status := "processing", error := none }
  ∧ (finalDoc (batchScoreOps ids db fetchFail score none)).status
      = "completed"
  ∧ (finalDoc (batchScoreOps ids db fetchFail score none)).processed
      = ids.length
  ∧ (finalDoc (batchScoreOps ids db fetchFail score none)).results.length
      = ids.length
  ∧ (∀ score2 : List Article → Option (List ℚ),
      (finalDoc (batchScoreOps ids db fetchFail score2 none)).status
        = "completed")
  ∧ (∀ (fetchFail2 : List ℕ → Option String) (e : String),
      (runChunks db fetchFail2 score
          { allResults := [], totalProcessed := 0 }
          (pyChunks 100 ids)).fail = some e →
      (finalDoc (batchScoreOps ids db fetchFail2 score none)).status
          = "failed"
      ∧ (finalDoc (batchScoreOps ids db fetchFail2 score none)).error
          = some e)
  ∧ (∀ e : String,
      (finalDoc (batchScoreOps ids db fetchFail score (some e))).status
        = "failed") := by
  have hstatus : ∀ score2 : List Article → Option (List ℚ),
      (finalDoc (batchScoreOps ids db fetchFail score2 none)).status
        = "completed" := by
    intro score2
    have hf := runChunks_fail_none db fetchFail score2 (pyChunks 100 ids)
      { allResults := [], totalProcessed := 0 } (fun c _ => hfetch c)
    simp [batchScoreOps, hf, finalDoc, List.foldl_append, applyOp]
  have hchunks : ∀ c ∈ pyChunks 100 ids,
      c.Nodup ∧ (∀ i ∈ c, (db i).isSome) ∧ c ≠ [] ∧ fetchFail c = none := by
    intro c hc
    obtain ⟨hsub, hne⟩ := pyChunks_mem (by norm_num) ids c hc
    exact ⟨hids.sublist hsub, fun i hi => hdb i (hsub.subset hi), hne,
      hfetch c⟩
  have hsum : ((pyChunks 100 ids).map List.length).sum = ids.length := by
    rw [← List.length_flatten, pyChunks_join (by norm_num : (100 : ℕ) ≠ 0) ids]
  have hproc := runChunks_processed db fetchFail score hscore
    (pyChunks 100 ids) { allResults := [], totalProcessed := 0 } hchunks
  have hlen := runChunks_len db fetchFail score (pyChunks 100 ids)
    { allResults := [], totalProcessed := 0 } rfl
  have hdoc := runChunks_doc db fetchFail score (pyChunks 100 ids)
    { allResults := [], totalProcessed := 0 }
    (applyOp emptyDoc (StoreOp.initJob ids.length)) rfl rfl
  refine ⟨by simp [batchScoreOps, hproc.2], rfl, hstatus score, ?_, ?_,
    hstatus, ?_, ?_⟩
  · simp only [batchScoreOps, hproc.2, finalDoc, List.foldl_cons,
      List.foldl_append, List.foldl_nil]
    show (List.foldl applyOp (applyOp emptyDoc (StoreOp.initJob ids.length))
      (runChunks db fetchFail score { allResults := [], totalProcessed := 0 }
        (pyChunks 100 ids)).ops).processed = ids.length
    rw [hdoc.1, hproc.1, hsum]
    simp
  · simp only [batchScoreOps, hproc.2, finalDoc, List.foldl_cons,
      List.foldl_append, List.foldl_nil]
    show (List.foldl applyOp (applyOp emptyDoc (StoreOp.initJob ids.length))
      (runChunks db fetchFail score { allResults := [], totalProcessed := 0 }
        (pyChunks 100 ids)).ops).results.length = ids.length
    rw [hdoc.2.1, hlen, hproc.1, hsum]
    simp
  · intro fetchFail2 e hfail
    simp [batchScoreOps, hfail, finalDoc, List.foldl_append, applyOp]
  · intro e
    simp [batchScoreOps, finalDoc, applyOp]

/-- Witness for C1 (amended): a concrete one-id job with a healthy database
ends completed with `processed` equal to the submitted count. -/
theorem c1_batch_job_amended_witness :
    (finalDoc (batchScoreOps [7] sampleDb (fun _ => none)
      (specScoreBatch (fun _ => 0)) none)).processed
      = ([7] : List ℕ).length :=
  (c1_batch_job_amended [7] sampleDb (fun _ => none)
    (specScoreBatch (fun _ => 0)) (by decide) (by decide) (fun _ => rfl)
    (fun arts => ⟨arts.map (fun _ => 0), rfl, by simp⟩)).2.2.2.1

/-- C2 counterexample: on a concrete one-chunk job, the chunk issues TWO
store writes (`processed` first, then `results`), and the state observable
between them has `processed = 1` but an empty results list — an inconsistent
pair, so the two fields are not written in one atomic store operation. -/
theorem c2_atomic_write_counterexample :
    (storeStates (batchScoreOps [7] sampleDb (fun _ => none)
        (specScoreBatch (fun _ => 0)) none)).get? 2
      = some { total := 1, processed := 1, results := [],
               status := "processing", error := none }
  ∧ ({ total := 1, processed := 1, results := [], status := "processing",
       error := none } : JobDoc).results.length
      ≠ ({ total := 1, processed := 1, results := [], status := "processing",
           error := none } : JobDoc).processed
  ∧ chunkOps sampleDb (fun _ => none) (specScoreBatch (fun _ => 0))
      { allResults := [], totalProcessed := 0 } [7]
    = Except.ok ([StoreOp.setProcessed 1, StoreOp.setResults [(7, 0)]],
        { allResults := [(7, 0)], totalProcessed := 1 }) := by
  refine ⟨by decide, by decide, by rfl⟩

/-- C2 (amended): after each chunk completes its pair of writes (and at every
chunk boundary, hence in the final state, whether the job ends completed or
failed), the stored results list is exactly as long as the processed counter;
but the two fields are written by two consecutive store operations per chunk
(`processed` then `results`), not one atomic operation, so a read between
them can observe an inconsistent pair. -/
theorem c2_consistency_amended :
    (∀ (ids : List ℕ) (db : ℕ → Option Article)
        (fetchFail : List ℕ → Option String)
        (score : List Article → Option (List ℚ)) (initFail : Option String),
      (finalDoc (batchScoreOps ids db fetchFail score initFail)).results.length
        = (finalDoc (batchScoreOps ids db fetchFail score initFail)).processed)
  ∧ (∀ (db : ℕ → Option Article) (fetchFail : List ℕ → Option String)
        (score : List Article → Option (List ℚ))
        (acc : ChunkAcc) (chunk : List ℕ),
      acc.allResults.length = acc.totalProcessed →
      (∃ e, chunkOps db fetchFail score acc chunk = Except.error e) ∨
      chunkOps db fetchFail score acc chunk = Except.ok ([], acc) ∨
      ∃ p rs, chunkOps db fetchFail score acc chunk
          = Except.ok ([StoreOp.setProcessed p, StoreOp.setResults rs],
              { allResults := rs, totalProcessed := p })
        ∧ rs.length = p) := by
  constructor
  · intro ids db fetchFail score initFail
    cases initFail with
    | some e => simp [batchScoreOps, finalDoc, applyOp, emptyDoc]
    | none =>
      have hdoc := runChunks_doc db fetchFail score (pyChunks 100 ids)
        { allResults := [], totalProcessed := 0 }
        (applyOp emptyDoc (StoreOp.initJob ids.length)) rfl rfl
      have hlen := runChunks_len db fetchFail score (pyChunks 100 ids)
        { allResults := [], totalProcessed := 0 } rfl
      rcases hfail : (runChunks db fetchFail score
          { allResults := [], totalProcessed := 0 }
          (pyChunks 100 ids)).fail with _ | e
      · simp only [batchScoreOps, hfail, finalDoc, List.foldl_cons,
          List.foldl_append, List.foldl_nil]
        show (List.foldl applyOp
            (applyOp emptyDoc (StoreOp.initJob ids.length))
            (runChunks db fetchFail score
              { allResults := [], totalProcessed := 0 }
              (pyChunks 100 ids)).ops).results.length
          = (List.foldl applyOp
            (applyOp emptyDoc (StoreOp.initJob ids.length))
            (runChunks db fetchFail score
              { allResults := [], totalProcessed := 0 }
              (pyChunks 100 ids)).ops).processed
        rw [hdoc.1, hdoc.2.1, hlen]
      · simp only [batchScoreOps, hfail, finalDoc, List.foldl_cons,
          List.foldl_append, List.foldl_nil]
        show (List.foldl applyOp
            (applyOp emptyDoc (StoreOp.initJob ids.length))
            (runChunks db fetchFail score
              { allResults := [], totalProcessed := 0 }
              (pyChunks 100 ids)).ops).results.length
          = (List.foldl applyOp
            (applyOp emptyDoc (StoreOp.initJob ids.length))
            (runChunks db fetchFail score
              { allResults := [], totalProcessed := 0 }
              (pyChunks 100 ids)).ops).processed
        rw [hdoc.1, hdoc.2.1, hlen]
  · intro db fetchFail score acc chunk hacc
    rcases chunkOps_shape db fetchFail score acc chunk with ⟨e, h⟩ | h | ⟨br, h⟩
    · exact Or.inl ⟨e, h⟩
    · exact Or.inr (Or.inl h)
    · refine Or.inr (Or.inr ⟨acc.totalProcessed + br.length,
        acc.allResults ++ br, by rw [h], ?_⟩)
      simp [hacc]

/-- Witness for C2 (amended): the chunk-shape disjunction instantiated on a
concrete chunk with consistent accumulators. -/
theorem c2_consistency_amended_witness :
    (∃ e, chunkOps sampleDb (fun _ => none) (specScoreBatch (fun _ => 0))
        { allResults := [], totalProcessed := 0 } [7] = Except.error e) ∨
    chunkOps sampleDb (fun _ => none) (specScoreBatch (fun _ => 0))
        { allResults := [], totalProcessed := 0 } [7]
      = Except.ok ([], { allResults := [], totalProcessed := 0 }) ∨
    ∃ p rs, chunkOps sampleDb (fun _ => none) (specScoreBatch (fun _ => 0))
        { allResults := [], totalProcessed := 0 } [7]
      = Except.ok ([StoreOp.setProcessed p, StoreOp.setResults rs],
          { allResults := rs, totalProcessed := p })
      ∧ rs.length = p :=
  c2_consistency_amended.2 sampleDb (fun _ => none)
    (specScoreBatch (fun _ => 0))
    { allResults := [], totalProcessed := 0 } [7] rfl

end PulsePick
